import Mathlib

/-!
Shallow embedding of the ratings-driven recommender core of
src/backend/spotify_api_dynamic.py: the submit_ratings_and_recommend
endpoint (lines 405-473), the model-loading glue load_recommender_models
(lines 375-403) and the module-level model globals (lines 368-373).
Python numbers are modelled exactly: scores and index labels as integers,
feature coordinates as rationals; a feature vector is a function from
coordinate position to rational.
-/

/-- A catalog entry of the recommender dataframe: its pandas index label
(the integer df_index exposed by /start-rating-session) together with the
standardized feature vector stored in the corresponding row of
scaled_features. -/
structure CatalogItem where
  ident : ℤ
  vec : ℕ → ℚ

/-- The loaded catalog: the feature dimension (length of feature_cols) and
the items in dataframe order, position i holding scaled_features[i] and
recommender_df.index[i]. -/
structure Store where
  dim : ℕ
  items : List CatalogItem

/-- One entry of the JSON ratings list sent to
/submit-ratings-and-recommend.  df_index = none models an object without a
usable df_index entry (r.get returns None, r[...] raises KeyError);
rating = none likewise for the rating entry. -/
structure Rating where
  df_index : Option ℤ
  rating : Option ℤ
deriving DecidableEq

/-- The error responses the endpoint can produce, one constructor per
distinct response of the Python code:
serviceUnavailable = 503 "Recommender system not initialized" (line 409),
noRatings = 400 "No ratings provided" (line 417),
noKnownSongs = 400 "Could not find any of the rated songs in the dataset"
(line 433), internalError = 500 "Failed to generate recommendations", the
catch-all handler for any exception raised inside the try block
(lines 471-473). -/
inductive ApiError where
  | serviceUnavailable
  | noRatings
  | noKnownSongs
  | internalError
deriving DecidableEq

/-- The HTTP status code each error response is returned with. -/
def ApiError.statusCode : ApiError → ℕ
  | .serviceUnavailable => 503
  | .noRatings => 400
  | .noKnownSongs => 400
  | .internalError => 500

/-- An output record of the recommendations list (lines 455-462): the
catalog item whose metadata is copied into the JSON object, together with
the squared Euclidean distance d2 from the query profile.  The code stores
similarity_score = 1 - sqrt d2 (line 461); the square root is applied by
similarity_score below. -/
structure Recommendation where
  item : CatalogItem
  d2 : ℚ

/-- The similarity_score field of a recommendation (line 461):
1 - (Euclidean distance), with the distance recovered from the squared
distance carried by the Recommendation record. -/
noncomputable def similarity_score (d2 : ℚ) : ℝ := 1 - Real.sqrt (d2 : ℝ)

/-- The loop of lines 423-430: for each rating keep (vector, rating - 3)
when the rating object has both a df_index and a rating and the df_index
occurs in recommender_df.index (lookup of the first matching row, as
pandas Index.get_loc does); otherwise drop the entry silently. -/
def survivors (store : Store) (ratings : List Rating) : List ((ℕ → ℚ) × ℤ) :=
  ratings.filterMap fun r =>
    match r.df_index, r.rating with
    | some i, some sc =>
        (store.items.find? fun it => decide (it.ident = i)).map fun it => (it.vec, sc - 3)
    | _, _ => none

/-- The sum of the centered weights collected in the loop. -/
def weightSum (s : List ((ℕ → ℚ) × ℤ)) : ℤ := (s.map Prod.snd).sum

/-- np.average(rated_features, axis=0, weights=weights) (line 436):
coordinatewise (sum of weight * vector) divided by the sum of weights. -/
def profileOf (s : List ((ℕ → ℚ) × ℤ)) : ℕ → ℚ := fun j =>
  (s.map fun p => (p.2 : ℚ) * p.1 j).sum / (s.map fun p => (p.2 : ℚ)).sum

/-- Lines 423-436, the profile-building stage: drop unusable ratings, fail
with noKnownSongs when nothing survives (line 432), and fail with the
generic internalError when the weights sum to zero, because np.average
raises ZeroDivisionError there and the catch-all handler of lines 471-473
turns it into the 500 response; otherwise return the weighted average. -/
def buildProfile (store : Store) (ratings : List Rating) :
    Except ApiError (ℕ → ℚ) :=
  if (survivors store ratings).isEmpty then .error .noKnownSongs
  else if weightSum (survivors store ratings) = 0 then .error .internalError
  else .ok (profileOf (survivors store ratings))

/-- Squared Euclidean distance between two vectors of the given dimension. -/
def sqDist (dim : ℕ) (q v : ℕ → ℚ) : ℚ :=
  ∑ j ∈ Finset.range dim, (q j - v j) ^ 2

/-- A candidate produced by the nearest-neighbor query: catalog position,
the item at that position, and its squared distance from the query. -/
structure Cand where
  pos : ℕ
  item : CatalogItem
  d2 : ℚ

/-- Comparison used to rank candidates: strictly smaller squared distance
first, ties broken by catalog position (first-seen wins).  Ranking by
squared Euclidean distance coincides with ranking by Euclidean distance. -/
def candLe (a b : Cand) : Prop :=
  a.d2 < b.d2 ∨ (a.d2 = b.d2 ∧ a.pos ≤ b.pos)

instance : DecidableRel candLe := fun a b => by
  unfold candLe; infer_instance

instance : IsTotal Cand candLe where
  total a b := by
    rcases lt_trichotomy a.d2 b.d2 with h | h | h
    · exact Or.inl (Or.inl h)
    · rcases le_total a.pos b.pos with hp | hp
      · exact Or.inl (Or.inr ⟨h, hp⟩)
      · exact Or.inr (Or.inr ⟨h.symm, hp⟩)
    · exact Or.inr (Or.inl h)

instance : IsTrans Cand candLe where
  trans a b c hab hbc := by
    rcases hab with h1 | ⟨e1, p1⟩
    · rcases hbc with h2 | ⟨e2, _⟩
      · exact Or.inl (h1.trans h2)
      · exact Or.inl (e2 ▸ h1)
    · rcases hbc with h2 | ⟨e2, p2⟩
      · exact Or.inl (e1 ▸ h2)
      · exact Or.inr ⟨e1.trans e2, p1.trans p2⟩

/-- Modelled from the spec: the Distance Index.  The knn_model object is a
pickled sklearn NearestNeighbors estimator produced by
backend/train_recommender.py, a file of this repository that is not under
src/, so its query behavior is taken from the spec, section 4.2: given a
query vector and k, return the min(k, catalog size) catalog entries with
smallest Euclidean distance to the query, sorted ascending by distance,
ties broken by catalog insertion order (first-seen wins), with k larger
than the catalog silently clamped.  Candidates carry the squared distance;
sorting by squared distance orders exactly as sorting by distance. -/
def kneighbors (store : Store) (q : ℕ → ℚ) (k : ℕ) : List Cand :=
  (List.insertionSort candLe
    (store.items.enum.map fun pi => ⟨pi.1, pi.2, sqDist store.dim q pi.2.vec⟩)).take k

/-- The formatting loop of lines 443-462: walk the neighbor list in order,
stop once top_k recommendations are collected, skip candidates whose index
label is in the rated set, and turn the rest into Recommendation records.
The first argument below is the remaining budget (top_k minus the number
already collected). -/
def collectRecs (rated : List ℤ) : ℕ → List Cand → List Recommendation
  | _, [] => []
  | 0, _ :: _ => []
  | b + 1, c :: rest =>
      if c.item.ident ∈ rated then collectRecs rated (b + 1) rest
      else ⟨c.item, c.d2⟩ :: collectRecs rated b rest

/-- The set comprehension of line 442, rated_df_indices = the df_index of
every rating: r['df_index'] raises KeyError when the entry is absent, which
the catch-all handler converts into the 500 internalError response.  The
Python set is modelled as the list of labels; only membership is used. -/
def ratedIdents : List Rating → Except ApiError (List ℤ)
  | [] => .ok []
  | r :: rs =>
      match r.df_index with
      | none => .error .internalError
      | some i =>
          match ratedIdents rs with
          | .error e => .error e
          | .ok l => .ok (i :: l)

/-- The body of /submit-ratings-and-recommend (lines 411-469) for a loaded
store: reject an empty ratings list (line 416), build the taste profile
(lines 420-436), fetch top_k * 2 neighbors (line 439), build the rated
set (line 442) and collect up to top_k unrated candidates (lines 443-462). -/
def submitRatingsAndRecommend (store : Store) (ratings : List Rating)
    (topK : ℕ) : Except ApiError (List Recommendation) :=
  if ratings.isEmpty then .error .noRatings
  else
    match buildProfile store ratings with
    | .error e => .error e
    | .ok q =>
        match ratedIdents ratings with
        | .error e => .error e
        | .ok rated => .ok (collectRecs rated topK (kneighbors store q (topK * 2)))

/-- The module-level recommender globals (lines 368-373).  The Boolean
fields record whether the corresponding global holds a loaded value (a
loaded model object is truthy); recommender_df bundles the dataframe
together with its scaled_features rows as a Store.  feature_cols is a
global of its own (line 373, assigned at line 394) but is NOT part of the
readiness guard of line 408 and is never read by the endpoint. -/
structure ServiceState where
  knn_model : Bool
  scaler : Bool
  recommender_df : Option Store
  scaled_features : Bool
  feature_cols : Bool

/-- The readiness check of line 408:
all([knn_model, scaler, recommender_df is not None, scaled_features is not None]);
note that feature_cols is not checked. -/
def ServiceState.ready (s : ServiceState) : Bool :=
  s.knn_model && s.scaler && s.recommender_df.isSome && s.scaled_features

/-- The state at process start, before load_recommender_models runs. -/
def initialState : ServiceState := ⟨false, false, none, false, false⟩

/-- The unpickled recommender_data dict of lines 388-394.  Each field
models one key; none models a key that is absent, so that the
corresponding assignment raises KeyError mid-block after the earlier
assignments have already happened. -/
structure DataArtifact where
  df : Option Store
  scaled_features : Option Unit
  feature_cols : Option Unit

/-- load_recommender_models (lines 375-403): the three pickles are opened
in sequence, and inside the third block the dict keys df (line 390),
scaled_features (line 393) and feature_cols (line 394) are read in that
order (the column-name normalization of lines 391-392 cannot fail).
A pickle given as none models a missing or corrupt file.  Any exception
aborts the function (returning False) but leaves every global assigned so
far in place - in particular, a dict lacking only the feature_cols key
fails the load after all four guarded globals are already set. -/
def load_recommender_models (s : ServiceState) (knnArt scalerArt : Option Unit)
    (dataArt : Option DataArtifact) : ServiceState × Bool :=
  match knnArt with
  | none => (s, false)
  | some _ =>
      let s1 := { s with knn_model := true }
      match scalerArt with
      | none => (s1, false)
      | some _ =>
          let s2 := { s1 with scaler := true }
          match dataArt with
          | none => (s2, false)
          | some data =>
              match data.df with
              | none => (s2, false)
              | some st =>
                  let s3 := { s2 with recommender_df := some st }
                  match data.scaled_features with
                  | none => (s3, false)
                  | some _ =>
                      let s4 := { s3 with scaled_features := true }
                      match data.feature_cols with
                      | none => (s4, false)
                      | some _ => ({ s4 with feature_cols := true }, true)

/-- The full endpoint including the readiness guard of lines 408-409. -/
def endpoint (s : ServiceState) (ratings : List Rating) (topK : ℕ) :
    Except ApiError (List Recommendation) :=
  if s.ready then
    match s.recommender_df with
    | some store => submitRatingsAndRecommend store ratings topK
    | none => .error .serviceUnavailable
  else .error .serviceUnavailable

/-- Projection of an endpoint result onto decidable data: the error, if
any. -/
def errProj : Except ApiError (List Recommendation) → Option ApiError
  | .error e => some e
  | .ok _ => none

/-- Projection of an endpoint result onto decidable data: the list of
(index label, squared distance) pairs of the recommendations, if any. -/
def okProj : Except ApiError (List Recommendation) → Option (List (ℤ × ℚ))
  | .error _ => none
  | .ok l => some (l.map fun rec => (rec.item.ident, rec.d2))

/-- Transcription of the spec, section 4.3: a rating survives when its
identity is found in the Feature Store; the surviving pair keeps the raw
score, the weight being assigned separately by specWeight. -/
def specSurvivors (store : Store) (ratings : List Rating) :
    List ((ℕ → ℚ) × ℤ) :=
  ratings.filterMap fun r =>
    match r.df_index, r.rating with
    | some i, some sc =>
        (store.items.find? fun it => decide (it.ident = i)).map fun it => (it.vec, sc)
    | _, _ => none

/-- Transcription of the spec, section 4.3: weight = score - midpoint,
with midpoint 3 on the 1-5 scale. -/
def specWeight (score : ℤ) : ℤ := score - 3

/-- Transcription of the spec, section 4.3: the TasteProfile is the
weighted arithmetic mean of the surviving vectors using the centered
weights. -/
def specTasteProfile (store : Store) (ratings : List Rating) : ℕ → ℚ := fun j =>
  ((specSurvivors store ratings).map fun p => (specWeight p.2 : ℚ) * p.1 j).sum /
    ((specSurvivors store ratings).map fun p => (specWeight p.2 : ℚ)).sum

/-- Whether a rating names an identity present in the Feature Store
(regardless of its score field): the dropping condition the spec describes
for the Profile Builder. -/
def knownIdentity (store : Store) (r : Rating) : Bool :=
  match r.df_index with
  | some i => (store.items.find? fun it => decide (it.ident = i)).isSome
  | none => false

/-! Concrete catalogs used by the witnesses, taken from the concrete
scenario of spec section 8: five items with vectors
[0,0], [1,0], [0,1], [5,5], [5,6] in two coordinates. -/

def item0 : CatalogItem := ⟨0, fun _ => 0⟩

def item1 : CatalogItem := ⟨1, fun j => if j = 0 then 1 else 0⟩

def item2 : CatalogItem := ⟨2, fun j => if j = 1 then 1 else 0⟩

def item3 : CatalogItem := ⟨3, fun _ => 5⟩

def item4 : CatalogItem := ⟨4, fun j => if j = 0 then 5 else 6⟩

def wStore : Store := ⟨2, [item0, item1, item2, item3, item4]⟩

/-- The rating batch of the concrete scenario: item0 rated 5. -/
def wRatings : List Rating := [⟨some 0, some 5⟩]

/-- A two-item one-coordinate catalog whose far item sits at Euclidean
distance 3 from the origin, used to exhibit a similarity score below 0. -/
def itemA : CatalogItem := ⟨0, fun _ => 0⟩

def itemB : CatalogItem := ⟨1, fun _ => 3⟩

def cStore : Store := ⟨1, [itemA, itemB]⟩

def cRatings : List Rating := [⟨some 0, some 5⟩]

/-- A recommender_data dict holding df and scaled_features but lacking the
feature_cols key: unpickling succeeds, the assignments of lines 390-393
all happen, and line 394 raises KeyError. -/
def poisonedData : DataArtifact := ⟨some cStore, some (), none⟩

/-- The global state after loading the two model pickles and the poisoned
data dict from a fresh start: the load reports failure, yet all four
guarded globals are set. -/
def poisonedState : ServiceState :=
  (load_recommender_models initialState (some ()) (some ())
    (some poisonedData)).1

/-- Extracting the profile from a successful buildProfile run. -/
theorem buildProfile_ok {store : Store} {ratings : List Rating} {p : ℕ → ℚ}
    (h : buildProfile store ratings = .ok p) :
    p = profileOf (survivors store ratings) ∧
      (survivors store ratings).isEmpty = false ∧
      weightSum (survivors store ratings) ≠ 0 := by
  unfold buildProfile at h
  by_cases h1 : (survivors store ratings).isEmpty
  · simp [h1] at h
  · by_cases h2 : weightSum (survivors store ratings) = 0
    · simp [h1, h2] at h
    · simp [h1, h2] at h
      exact ⟨h.symm, by simpa using h1, h2⟩

/-- The loop of lines 423-430 computes exactly the spec transcription with
the centering applied to each kept score. -/
theorem survivors_eq_map_spec (store : Store) (ratings : List Rating) :
    survivors store ratings
      = (specSurvivors store ratings).map fun p => (p.1, p.2 - 3) := by
  induction ratings with
  | nil => rfl
  | cons r rs ih =>
      simp only [survivors, specSurvivors, List.filterMap_cons] at *
      cases hd : r.df_index with
      | none => simpa [hd] using ih
      | some i =>
          cases hr : r.rating with
          | none => simpa [hd, hr] using ih
          | some sc =>
              cases hf : store.items.find? fun it => decide (it.ident = i) with
              | none => simpa [hd, hr, hf] using ih
              | some it => simpa [hd, hr, hf] using ih

/-- Permuting the input ratings permutes the surviving (vector, weight)
pairs. -/
theorem survivors_perm (store : Store) {r1 r2 : List Rating}
    (h : r1.Perm r2) : (survivors store r1).Perm (survivors store r2) :=
  h.filterMap _

/-- isEmpty is invariant under permutation. -/
theorem isEmpty_eq_of_perm {α : Type} {l1 l2 : List α} (h : l1.Perm l2) :
    l1.isEmpty = l2.isEmpty := by
  cases l1 with
  | nil => cases l2 with
    | nil => rfl
    | cons b u => exact absurd h.length_eq (by simp)
  | cons a t => cases l2 with
    | nil => exact absurd h.length_eq (by simp)
    | cons b u => rfl

/-- The weight sum is invariant under permutation of the survivors. -/
theorem weightSum_eq_of_perm {s1 s2 : List ((ℕ → ℚ) × ℤ)} (h : s1.Perm s2) :
    weightSum s1 = weightSum s2 :=
  (h.map _).sum_eq

/-- The weighted average is invariant under permutation of the survivors. -/
theorem profileOf_eq_of_perm {s1 s2 : List ((ℕ → ℚ) × ℤ)} (h : s1.Perm s2) :
    profileOf s1 = profileOf s2 := by
  funext j
  unfold profileOf
  rw [(h.map _).sum_eq, (h.map _).sum_eq]

/-- Everything collectRecs emits has an index label outside the rated set. -/
theorem mem_collectRecs_not_rated {rated : List ℤ} {rec : Recommendation} :
    ∀ {b : ℕ} {l : List Cand}, rec ∈ collectRecs rated b l →
      rec.item.ident ∉ rated := by
  intro b l
  induction l generalizing b with
  | nil => simp [collectRecs]
  | cons c rest ih =>
      cases b with
      | zero => simp [collectRecs]
      | succ b' =>
          simp only [collectRecs]
          by_cases hc : c.item.ident ∈ rated
          · rw [if_pos hc]
            exact ih
          · rw [if_neg hc]
            intro hm
            rcases List.mem_cons.mp hm with hm | hm
            · subst hm; exact hc
            · exact ih hm

/-- A successful rated-set construction lists the df_index of every
rating. -/
theorem ratedIdents_mem {ratings : List Rating} {l : List ℤ}
    (h : ratedIdents ratings = .ok l) :
    ∀ r ∈ ratings, ∀ i, r.df_index = some i → i ∈ l := by
  induction ratings generalizing l with
  | nil => simp
  | cons r rs ih =>
      intro r' hr' i hi
      unfold ratedIdents at h
      cases hd : r.df_index with
      | none => rw [hd] at h; exact absurd h (by simp)
      | some j =>
          rw [hd] at h
          cases ht : ratedIdents rs with
          | error e => rw [ht] at h; exact absurd h (by simp)
          | ok l' =>
              rw [ht] at h
              have hl : l = j :: l' := by
                have := h
                simp at this
                exact this.symm
              subst hl
              rcases List.mem_cons.mp hr' with he | he
              · subst he
                rw [hd] at hi
                simp at hi
                subst hi
                exact List.mem_cons_self _ _
              · exact List.mem_cons_of_mem _ (ih ht r' he i hi)

/-- A successful rated-set construction is exactly the list of present
df_index values. -/
theorem ratedIdents_eq {ratings : List Rating} {l : List ℤ}
    (h : ratedIdents ratings = .ok l) :
    l = ratings.filterMap Rating.df_index := by
  induction ratings generalizing l with
  | nil =>
      unfold ratedIdents at h
      simp at h
      simp [h.symm]
  | cons r rs ih =>
      unfold ratedIdents at h
      cases hd : r.df_index with
      | none => rw [hd] at h; exact absurd h (by simp)
      | some j =>
          rw [hd] at h
          cases ht : ratedIdents rs with
          | error e => rw [ht] at h; exact absurd h (by simp)
          | ok l' =>
              rw [ht] at h
              simp at h
              rw [List.filterMap_cons, hd, h.symm, ih ht]

/-- When some rating object has no df_index entry, building the rated set
raises the KeyError that the catch-all turns into the 500 response. -/
theorem ratedIdents_none {ratings : List Rating}
    (h : ∃ r ∈ ratings, r.df_index = none) :
    ratedIdents ratings = .error .internalError := by
  induction ratings with
  | nil => simp at h
  | cons r rs ih =>
      rcases h with ⟨r', hr', hnone⟩
      rcases List.mem_cons.mp hr' with he | he
      · subst he
        unfold ratedIdents
        rw [hnone]
      · unfold ratedIdents
        cases hd : r.df_index with
        | none => rfl
        | some j => rw [ih ⟨r', he, hnone⟩]

/-- collectRecs is the truncation of the exclusion-filtered candidate
list, mapped into Recommendation records. -/
theorem collectRecs_eq_take (rated : List ℤ) :
    ∀ (b : ℕ) (l : List Cand),
      collectRecs rated b l
        = ((l.filter fun c => !(decide (c.item.ident ∈ rated))).map
            fun c => ⟨c.item, c.d2⟩).take b := by
  intro b l
  induction l generalizing b with
  | nil => cases b <;> rfl
  | cons c rest ih =>
      cases b with
      | zero =>
          simp [collectRecs]
      | succ b' =>
          by_cases hc : c.item.ident ∈ rated
          · simp [collectRecs, List.filter_cons, hc, ih (b' + 1)]
          · simp [collectRecs, List.filter_cons, hc, ih b']

/-- The survivors list is empty exactly when every rating either lacks a
field or names an unknown identity; under well-formed ratings this is the
unknown-identity drop of the spec. -/
theorem survivors_nil_iff {store : Store} {ratings : List Rating}
    (hwf : ∀ r ∈ ratings, r.df_index.isSome ∧ r.rating.isSome) :
    (survivors store ratings = []
      ↔ ratings.filter (knownIdentity store) = []) := by
  induction ratings with
  | nil => simp [survivors]
  | cons r rs ih =>
      have hr := hwf r (List.mem_cons_self r rs)
      have hwf' : ∀ r' ∈ rs, r'.df_index.isSome ∧ r'.rating.isSome :=
        fun r' h' => hwf r' (List.mem_cons_of_mem r h')
      rcases Option.isSome_iff_exists.mp hr.1 with ⟨i, hd⟩
      rcases Option.isSome_iff_exists.mp hr.2 with ⟨sc, hsc⟩
      cases hf : store.items.find? fun it => decide (it.ident = i) with
      | none =>
          have h1 : survivors store (r :: rs) = survivors store rs := by
            simp [survivors, List.filterMap_cons, hd, hsc, hf]
          have h2 : List.filter (knownIdentity store) (r :: rs)
              = List.filter (knownIdentity store) rs := by
            simp [List.filter_cons, knownIdentity, hd, hf]
          rw [h1, h2]
          exact ih hwf'
      | some it =>
          have h1 : survivors store (r :: rs)
              = (it.vec, sc - 3) :: survivors store rs := by
            simp [survivors, List.filterMap_cons, hd, hsc, hf]
          have h2 : List.filter (knownIdentity store) (r :: rs)
              = r :: List.filter (knownIdentity store) rs := by
            simp [List.filter_cons, knownIdentity, hd, hf]
          rw [h1, h2]
          simp

/-- The rated-set construction only ever fails with the generic internal
error. -/
theorem ratedIdents_error_internal {ratings : List Rating} {e : ApiError}
    (h : ratedIdents ratings = .error e) : e = .internalError := by
  induction ratings generalizing e with
  | nil => exact absurd h (by simp [ratedIdents])
  | cons r rs ih =>
      unfold ratedIdents at h
      cases hd : r.df_index with
      | none =>
          rw [hd] at h
          simpa using h.symm
      | some j =>
          rw [hd] at h
          cases ht : ratedIdents rs with
          | error e' =>
              rw [ht] at h
              simp at h
              exact h ▸ ih ht
          | ok l => rw [ht] at h; exact absurd h (by simp)

/-- C1: whenever the Profile Builder succeeds, the TasteProfile it returns
is the weighted arithmetic mean of the surviving feature vectors, each
surviving rating weighted by its score minus the scale midpoint 3 (score 5
weighs 2, score 1 weighs -2, score 3 weighs 0), exactly as the spec
transcription specTasteProfile states. -/
theorem c1_profile_weighted_mean (store : Store) (ratings : List Rating)
    (p : ℕ → ℚ) (h : buildProfile store ratings = .ok p) :
    p = specTasteProfile store ratings := by
  obtain ⟨hp, -, -⟩ := buildProfile_ok h
  subst hp
  funext j
  unfold profileOf specTasteProfile
  rw [survivors_eq_map_spec, List.map_map, List.map_map]
  rfl

/-- C1 witness: the concrete scenario of spec section 8 (item0 rated 5 on
the five-item catalog) has a successfully built profile equal to the spec
transcription. -/
theorem c1_witness :
    profileOf (survivors wStore wRatings) = specTasteProfile wStore wRatings :=
  c1_profile_weighted_mean wStore wRatings
    (profileOf (survivors wStore wRatings)) rfl

/-- C8: the Profile Builder is order-independent: permuted rating batches
produce identical results (identical profiles, and identical error
behavior). -/
theorem c8_order_invariant (store : Store) (r1 r2 : List Rating)
    (h : r1.Perm r2) : buildProfile store r1 = buildProfile store r2 := by
  have hs := survivors_perm store h
  unfold buildProfile
  rw [isEmpty_eq_of_perm hs, weightSum_eq_of_perm hs, profileOf_eq_of_perm hs]

/-- C8 witness: swapping a concrete two-element rating batch leaves the
built profile unchanged. -/
theorem c8_witness :
    buildProfile wStore [⟨some 0, some 5⟩, ⟨some 1, some 4⟩]
      = buildProfile wStore [⟨some 1, some 4⟩, ⟨some 0, some 5⟩] :=
  c8_order_invariant wStore _ _
    (List.Perm.swap (⟨some 1, some 4⟩ : Rating) (⟨some 0, some 5⟩ : Rating) [])

/-- C2: a successful request never recommends an item whose index label
appears as the df_index of any rating in the input batch. -/
theorem c2_excludes_rated (store : Store) (ratings : List Rating)
    (topK : ℕ) (recs : List Recommendation)
    (h : submitRatingsAndRecommend store ratings topK = .ok recs) :
    ∀ rec ∈ recs, ∀ r ∈ ratings, r.df_index ≠ some rec.item.ident := by
  unfold submitRatingsAndRecommend at h
  by_cases he : ratings.isEmpty
  · rw [if_pos he] at h; exact absurd h (by simp)
  · rw [if_neg he] at h
    cases hb : buildProfile store ratings with
    | error e => rw [hb] at h; exact absurd h (by simp)
    | ok q =>
        rw [hb] at h
        cases hri : ratedIdents ratings with
        | error e => rw [hri] at h; exact absurd h (by simp)
        | ok rated =>
            rw [hri] at h
            simp at h
            intro rec hrec r hr hcontra
            rw [← h] at hrec
            exact mem_collectRecs_not_rated hrec
              (ratedIdents_mem hri r hr rec.item.ident hcontra)

/-- C5 amended: a nonempty batch of known identities all scored at the
midpoint 3 makes every centered weight 0, np.average raises
ZeroDivisionError, and the catch-all handler returns the generic 500
internalError response (not a dedicated request-level rejection). -/
theorem c5_degenerate_internal_error (store : Store) (ratings : List Rating)
    (topK : ℕ) (hne : survivors store ratings ≠ [])
    (h3 : ∀ r ∈ ratings, r.rating = some 3) :
    submitRatingsAndRecommend store ratings topK = .error .internalError := by
  have hrne : ratings ≠ [] := by
    intro hh; rw [hh] at hne; exact hne rfl
  have hw : weightSum (survivors store ratings) = 0 := by
    unfold weightSum
    apply List.sum_eq_zero
    intro x hx
    rcases List.mem_map.mp hx with ⟨sv, hsv, hxeq⟩
    rcases List.mem_filterMap.mp hsv with ⟨r, hr, hfr⟩
    rw [h3 r hr] at hfr
    cases hd : r.df_index with
    | none => rw [hd] at hfr; simp at hfr
    | some i =>
        rw [hd] at hfr
        dsimp only at hfr
        cases hf : store.items.find? fun it => decide (it.ident = i) with
        | none => rw [hf] at hfr; simp at hfr
        | some it =>
            rw [hf] at hfr
            obtain ⟨-, h2⟩ : it.vec = sv.1 ∧ (3 - 3 : ℤ) = sv.2 := by
              simpa [Prod.ext_iff] using hfr
            rw [← hxeq, ← h2]
            decide
  unfold submitRatingsAndRecommend
  rw [if_neg (by simpa [List.isEmpty_iff] using hrne)]
  have hb : buildProfile store ratings = .error .internalError := by
    unfold buildProfile
    rw [if_neg (by simpa [List.isEmpty_iff] using hne), if_pos hw]
  rw [hb]

/-- C5 counterexample: on the concrete catalog, the all-midpoint batch
rating item0 with score 3 is answered with the generic internalError,
which carries HTTP status 500 — a generic internal failure, not a
dedicated request-level DegenerateWeights rejection. -/
theorem c5_counterexample :
    submitRatingsAndRecommend wStore [⟨some 0, some 3⟩] 10
        = .error .internalError ∧
      ApiError.statusCode .internalError = 500 :=
  ⟨rfl, rfl⟩

/-- C5 witness: the amended statement applied to the concrete all-midpoint
batch. -/
theorem c5_witness :
    submitRatingsAndRecommend wStore [⟨some 0, some 3⟩] 10
      = .error .internalError :=
  c5_degenerate_internal_error wStore [⟨some 0, some 3⟩] 10
    (by intro hh; exact absurd (congrArg List.length hh) (by decide))
    (by decide)

/-- C10: a batch containing at least one usable rating of a known identity
together with at least one rating object lacking its df_index entry makes
the whole request fail with the generic internalError: the malformed entry
is skipped during profile building, but the rated-set comprehension of
line 442 accesses df_index unconditionally and raises. -/
theorem c10_missing_key_aborts (store : Store) (ratings : List Rating)
    (topK : ℕ) (hmiss : ∃ r ∈ ratings, r.df_index = none)
    (hvalid : survivors store ratings ≠ []) :
    submitRatingsAndRecommend store ratings topK = .error .internalError := by
  have hrne : ratings ≠ [] := by
    intro hh; rw [hh] at hvalid; exact hvalid rfl
  unfold submitRatingsAndRecommend
  rw [if_neg (by simpa [List.isEmpty_iff] using hrne)]
  by_cases hw : weightSum (survivors store ratings) = 0
  · have hb : buildProfile store ratings = .error .internalError := by
      unfold buildProfile
      rw [if_neg (by simpa [List.isEmpty_iff] using hvalid), if_pos hw]
    rw [hb]
  · have hb : buildProfile store ratings
        = .ok (profileOf (survivors store ratings)) := by
      unfold buildProfile
      rw [if_neg (by simpa [List.isEmpty_iff] using hvalid), if_neg hw]
    rw [hb, ratedIdents_none hmiss]

/-- C10 witness: rating item0 normally and adding an object without a
df_index entry aborts the whole request with the internalError response. -/
theorem c10_witness :
    submitRatingsAndRecommend wStore [⟨some 0, some 5⟩, ⟨none, some 4⟩] 10
      = .error .internalError :=
  c10_missing_key_aborts wStore [⟨some 0, some 5⟩, ⟨none, some 4⟩] 10
    ⟨⟨none, some 4⟩, by decide, rfl⟩
    (by intro hh; exact absurd (congrArg List.length hh) (by decide))

/-- C3: a successful request returns at most topK recommendations; the
result is exactly the truncation at topK of the exclusion-filtered fetched
candidates, so when fewer than topK remain all of them are returned,
unpadded; and the fetch itself silently clamps topK * 2 to the catalog
size. -/
theorem c3_topk_bound (store : Store) (ratings : List Rating) (topK : ℕ)
    (recs : List Recommendation) (hk : 1 ≤ topK)
    (h : submitRatingsAndRecommend store ratings topK = .ok recs) :
    recs.length ≤ topK ∧
      recs.length = min topK
        ((kneighbors store (profileOf (survivors store ratings))
            (topK * 2)).filter fun c =>
              !(decide (c.item.ident ∈ ratings.filterMap Rating.df_index))).length ∧
      (kneighbors store (profileOf (survivors store ratings))
          (topK * 2)).length = min (topK * 2) store.items.length := by
  unfold submitRatingsAndRecommend at h
  by_cases he : ratings.isEmpty
  · rw [if_pos he] at h; exact absurd h (by simp)
  · rw [if_neg he] at h
    cases hb : buildProfile store ratings with
    | error e => rw [hb] at h; exact absurd h (by simp)
    | ok q =>
        rw [hb] at h
        obtain ⟨hq, -, -⟩ := buildProfile_ok hb
        subst hq
        cases hri : ratedIdents ratings with
        | error e => rw [hri] at h; exact absurd h (by simp)
        | ok rated =>
            rw [hri] at h
            simp at h
            rw [ratedIdents_eq hri] at h
            rw [← h, collectRecs_eq_take]
            refine ⟨?_, ?_, ?_⟩
            · rw [List.length_take]
              exact min_le_left _ _
            · rw [List.length_take, List.length_map]
            · unfold kneighbors
              rw [List.length_take, List.length_insertionSort,
                List.length_map, List.enum_length]

/-- C7: against any catalog the modelled Distance Index returns exactly
min(k, catalog size) candidates in non-decreasing order of (squared)
Euclidean distance, and the recommendation list derived from it by
exclusion filtering and truncation inherits that order: non-decreasing
distance, hence non-increasing similarity. -/
theorem c7_query_sorted (store : Store) (q : ℕ → ℚ) (k : ℕ)
    (hne : store.items ≠ []) :
    (kneighbors store q k).length = min k store.items.length ∧
      (kneighbors store q k).Pairwise (fun a b => a.d2 ≤ b.d2) ∧
      ∀ (rated : List ℤ) (topK : ℕ),
        (collectRecs rated topK (kneighbors store q k)).Pairwise
          fun r1 r2 => r1.d2 ≤ r2.d2 ∧
            similarity_score r2.d2 ≤ similarity_score r1.d2 := by
  have hsorted : (kneighbors store q k).Pairwise fun a b => a.d2 ≤ b.d2 := by
    have hs := List.sorted_insertionSort candLe
      (store.items.enum.map fun pi => ⟨pi.1, pi.2, sqDist store.dim q pi.2.vec⟩)
    have hs2 : (kneighbors store q k).Pairwise candLe :=
      List.Pairwise.sublist (List.take_sublist k _) hs
    refine hs2.imp ?_
    intro a b hab
    rcases hab with hlt | ⟨heq, -⟩
    · exact le_of_lt hlt
    · exact le_of_eq heq
  refine ⟨?_, hsorted, ?_⟩
  · unfold kneighbors
    rw [List.length_take, List.length_insertionSort, List.length_map,
      List.enum_length]
  · intro rated topK
    rw [collectRecs_eq_take rated topK]
    have h1 : ((kneighbors store q k).filter fun c =>
        !(decide (c.item.ident ∈ rated))).Pairwise fun a b => a.d2 ≤ b.d2 :=
      List.Pairwise.sublist (List.filter_sublist _) hsorted
    have h2 : (((kneighbors store q k).filter fun c =>
        !(decide (c.item.ident ∈ rated))).map fun c =>
          (⟨c.item, c.d2⟩ : Recommendation)).Pairwise
        fun r1 r2 => r1.d2 ≤ r2.d2 ∧
          similarity_score r2.d2 ≤ similarity_score r1.d2 := by
      refine List.pairwise_map.mpr (h1.imp ?_)
      intro a b hab
      refine ⟨hab, ?_⟩
      unfold similarity_score
      have hc : ((a.d2 : ℚ) : ℝ) ≤ ((b.d2 : ℚ) : ℝ) := by exact_mod_cast hab
      have := Real.sqrt_le_sqrt hc
      linarith
    exact List.Pairwise.sublist (List.take_sublist topK _) h2

/-- C4: for well-formed rating objects (both entries present, as the data
model of the spec prescribes), the request fails with one of the two
empty-input rejections (the 400 responses of lines 416-417 and 432-433)
exactly when no rating names an identity known to the Feature Store;
a batch containing at least one known identity never produces them. -/
theorem c4_empty_input_iff (store : Store) (ratings : List Rating)
    (topK : ℕ)
    (hwf : ∀ r ∈ ratings, r.df_index.isSome ∧ r.rating.isSome) :
    (submitRatingsAndRecommend store ratings topK = .error .noRatings ∨
        submitRatingsAndRecommend store ratings topK = .error .noKnownSongs)
      ↔ ratings.filter (knownIdentity store) = [] := by
  by_cases he : ratings.isEmpty
  · have hnil := List.isEmpty_iff.mp he
    subst hnil
    simp [submitRatingsAndRecommend]
  · unfold submitRatingsAndRecommend
    rw [if_neg he]
    by_cases hs : (survivors store ratings).isEmpty
    · have hb : buildProfile store ratings = .error .noKnownSongs := by
        unfold buildProfile
        rw [if_pos hs]
      have hfil := (survivors_nil_iff hwf).mp (List.isEmpty_iff.mp hs)
      rw [hb]
      simp [hfil]
    · have hsnil : survivors store ratings ≠ [] := by
        intro hh
        exact hs (by simp [hh])
      have hfil : ratings.filter (knownIdentity store) ≠ [] :=
        fun hh => hsnil ((survivors_nil_iff hwf).mpr hh)
      by_cases hw : weightSum (survivors store ratings) = 0
      · have hb : buildProfile store ratings = .error .internalError := by
          unfold buildProfile
          rw [if_neg hs, if_pos hw]
        rw [hb]
        simp [hfil]
      · have hb : buildProfile store ratings
            = .ok (profileOf (survivors store ratings)) := by
          unfold buildProfile
          rw [if_neg hs, if_neg hw]
        rw [hb]
        cases hri : ratedIdents ratings with
        | error e =>
            have he' := ratedIdents_error_internal hri
            subst he'
            simp [hfil]
        | ok rated => simp [hfil]

/-- C4 witness: a batch naming only the unknown identity 99 is rejected
with one of the two empty-input responses. -/
theorem c4_witness :
    submitRatingsAndRecommend wStore [⟨some 99, some 5⟩] 7
        = .error .noRatings ∨
      submitRatingsAndRecommend wStore [⟨some 99, some 5⟩] 7
        = .error .noKnownSongs :=
  (c4_empty_input_iff wStore [⟨some 99, some 5⟩] 7 (by decide)).mpr (by decide)

/-- On the two-item catalog, the profile built from rating itemA with
score 5 is the zero vector. -/
theorem cProfile_eq :
    profileOf (survivors cStore cRatings) = fun _ => (0 : ℚ) := by
  funext j
  have hs : survivors cStore cRatings = [(itemA.vec, 2)] := rfl
  rw [hs]
  simp [profileOf, itemA]

/-- On the two-item catalog, querying the modelled Distance Index at the
origin returns itemA at squared distance 0 and itemB at squared
distance 9. -/
theorem cNeighbors_eq :
    kneighbors cStore (fun _ => (0 : ℚ)) 2
      = [⟨0, itemA, 0⟩, ⟨1, itemB, 9⟩] := by
  unfold kneighbors
  have he : cStore.items.enum = [(0, itemA), (1, itemB)] := rfl
  rw [he]
  simp only [List.map_cons, List.map_nil]
  have dA : sqDist cStore.dim (fun _ => (0 : ℚ)) itemA.vec = 0 := by
    simp [sqDist, cStore, itemA]
  have dB : sqDist cStore.dim (fun _ => (0 : ℚ)) itemB.vec = 9 := by
    simp [sqDist, cStore, itemB]
    norm_num
  rw [dA, dB]
  norm_num [List.insertionSort, List.orderedInsert, candLe]

/-- The full pipeline on the two-item catalog: rating itemA with score 5
and asking for one recommendation returns itemB at squared distance 9. -/
theorem cPipeline :
    submitRatingsAndRecommend cStore cRatings 1
      = .ok [⟨itemB, 9⟩] := by
  have hstep : submitRatingsAndRecommend cStore cRatings 1
      = .ok (collectRecs [0] 1
          (kneighbors cStore (profileOf (survivors cStore cRatings)) 2)) := rfl
  rw [hstep, cProfile_eq, cNeighbors_eq]
  rfl

/-- C6 counterexample: a returned recommendation can carry a similarity
score strictly below 0 — on the two-item catalog the recommended itemB
sits at Euclidean distance 3 from the profile, so its similarity score is
1 - 3 = -2, outside [0,1]. -/
theorem c6_counterexample :
    okProj (submitRatingsAndRecommend cStore cRatings 1) = some [(1, 9)] ∧
      similarity_score 9 < 0 := by
  constructor
  · rw [cPipeline]
    rfl
  · unfold similarity_score
    have h9 : Real.sqrt ((9 : ℚ) : ℝ) = 3 := by
      rw [show ((9 : ℚ) : ℝ) = 3 ^ 2 by norm_num,
        Real.sqrt_sq (by norm_num : (0 : ℝ) ≤ 3)]
    rw [h9]
    norm_num

/-- Everything collectRecs emits is built from a candidate of its input
list. -/
theorem mem_collectRecs_exists {rated : List ℤ} {b : ℕ} {l : List Cand}
    {rec : Recommendation} (h : rec ∈ collectRecs rated b l) :
    ∃ c ∈ l, rec = ⟨c.item, c.d2⟩ := by
  rw [collectRecs_eq_take] at h
  have h1 := (List.take_sublist b _).subset h
  rcases List.mem_map.mp h1 with ⟨c, hc, hceq⟩
  exact ⟨c, (List.filter_sublist l).subset hc, hceq.symm⟩

/-- Every candidate the modelled Distance Index returns carries a
nonnegative squared distance. -/
theorem kneighbors_d2_nonneg {store : Store} {q : ℕ → ℚ} {k : ℕ}
    {c : Cand} (h : c ∈ kneighbors store q k) : 0 ≤ c.d2 := by
  unfold kneighbors at h
  have h1 := (List.take_sublist k _).subset h
  have h2 := (List.perm_insertionSort candLe _).subset h1
  rcases List.mem_map.mp h2 with ⟨pi, -, hceq⟩
  rw [← hceq]
  show 0 ≤ sqDist store.dim q pi.2.vec
  exact Finset.sum_nonneg fun j _ => sq_nonneg _

/-- C6 amended: every returned recommendation has a nonnegative squared
distance from the profile, hence a similarity score of at most 1; the
score lies in [0,1] exactly for candidates within Euclidean distance 1,
and goes negative beyond that, as the open question in spec section 9
acknowledges. -/
theorem c6_similarity_bounds (store : Store) (ratings : List Rating)
    (topK : ℕ) (recs : List Recommendation)
    (h : submitRatingsAndRecommend store ratings topK = .ok recs) :
    ∀ rec ∈ recs, 0 ≤ rec.d2 ∧ similarity_score rec.d2 ≤ 1 ∧
      (rec.d2 ≤ 1 → 0 ≤ similarity_score rec.d2) := by
  intro rec hrec
  have hd2 : 0 ≤ rec.d2 := by
    unfold submitRatingsAndRecommend at h
    by_cases he : ratings.isEmpty
    · rw [if_pos he] at h; exact absurd h (by simp)
    · rw [if_neg he] at h
      cases hb : buildProfile store ratings with
      | error e => rw [hb] at h; exact absurd h (by simp)
      | ok q =>
          rw [hb] at h
          cases hri : ratedIdents ratings with
          | error e => rw [hri] at h; exact absurd h (by simp)
          | ok rated =>
              rw [hri] at h
              simp at h
              rw [← h] at hrec
              rcases mem_collectRecs_exists hrec with ⟨c, hc, hceq⟩
              rw [hceq]
              exact kneighbors_d2_nonneg hc
  refine ⟨hd2, ?_, ?_⟩
  · unfold similarity_score
    have := Real.sqrt_nonneg ((rec.d2 : ℚ) : ℝ)
    linarith
  · intro hd
    unfold similarity_score
    have h1 : ((rec.d2 : ℚ) : ℝ) ≤ 1 := by exact_mod_cast hd
    have := Real.sqrt_le_one.mpr h1
    linarith

/-- C6 witness: the amended bounds applied to the concrete pipeline
output. -/
theorem c6_witness :
    0 ≤ (9 : ℚ) ∧ similarity_score (9 : ℚ) ≤ 1 ∧
      ((9 : ℚ) ≤ 1 → 0 ≤ similarity_score (9 : ℚ)) :=
  c6_similarity_bounds cStore cRatings 1 [⟨itemB, 9⟩] cPipeline
    ⟨itemB, 9⟩ (List.mem_singleton.mpr rfl)

/-- C2 witness: in the concrete run the single input rating (df_index 0)
does not name the recommended item (index label 1). -/
theorem c2_witness :
    (⟨some 0, some 5⟩ : Rating).df_index
      ≠ some ((⟨itemB, 9⟩ : Recommendation)).item.ident :=
  c2_excludes_rated cStore cRatings 1 [⟨itemB, 9⟩] cPipeline
    ⟨itemB, 9⟩ (List.mem_singleton.mpr rfl)
    ⟨some 0, some 5⟩ (List.mem_singleton.mpr rfl)

/-- C3 witness: the concrete run returns one recommendation, which is
both at most topK = 1 and exactly min of topK and the surviving candidate
count, with the fetch clamped to the catalog size. -/
theorem c3_witness :
    ([⟨itemB, 9⟩] : List Recommendation).length ≤ 1 ∧
      ([⟨itemB, 9⟩] : List Recommendation).length = min 1
        ((kneighbors cStore (profileOf (survivors cStore cRatings))
            (1 * 2)).filter fun c =>
              !(decide (c.item.ident ∈ cRatings.filterMap Rating.df_index))).length ∧
      (kneighbors cStore (profileOf (survivors cStore cRatings))
          (1 * 2)).length = min (1 * 2) cStore.items.length :=
  c3_topk_bound cStore cRatings 1 [⟨itemB, 9⟩] (by decide) cPipeline

/-- C7 witness: the instantiated query guarantee on the five-item catalog
with the origin as query vector, and the derived ordering of the filtered
recommendation list. -/
theorem c7_witness :
    (kneighbors wStore (fun _ => (0 : ℚ)) 3).length
        = min 3 wStore.items.length ∧
      (kneighbors wStore (fun _ => (0 : ℚ)) 3).Pairwise
        (fun a b => a.d2 ≤ b.d2) ∧
      (collectRecs [0] 2 (kneighbors wStore (fun _ => (0 : ℚ)) 3)).Pairwise
        (fun r1 r2 => r1.d2 ≤ r2.d2 ∧
          similarity_score r2.d2 ≤ similarity_score r1.d2) := by
  obtain ⟨h1, h2, h3⟩ :=
    c7_query_sorted wStore (fun _ => (0 : ℚ)) 3 (List.cons_ne_nil _ _)
  exact ⟨h1, h2, h3 [0] 2⟩

/-- C9 counterexample: loading a data dict that lacks only feature_cols
from a fresh start makes load_recommender_models report failure, yet the
four guarded globals of line 408 are all set, so the service is Ready and
a subsequent query succeeds instead of failing with serviceUnavailable -
refuting that a failed load leaves every query failing fast. -/
theorem c9_counterexample :
    (load_recommender_models initialState (some ()) (some ())
        (some poisonedData)).2 = false ∧
      poisonedState.ready = true ∧
      endpoint poisonedState cRatings 1 = .ok [⟨itemB, 9⟩] := by
  refine ⟨rfl, rfl, ?_⟩
  have hstep : endpoint poisonedState cRatings 1
      = submitRatingsAndRecommend cStore cRatings 1 := rfl
  rw [hstep, cPipeline]

/-- C9 amended: a query attempted while the service is not ready (one of
the four guarded globals unset) fails fast with serviceUnavailable, and a
query returns recommendations only when the service is ready; a load from
the fresh start state that fails leaves the service not ready provided the
failure is not the feature_cols-only case - that is, whenever the data
dict (when it unpickles at all) does have its feature_cols key. -/
theorem c9_ready_guard :
    (∀ (s : ServiceState) (ratings : List Rating) (topK : ℕ),
        s.ready = false →
          endpoint s ratings topK = .error .serviceUnavailable) ∧
      (∀ (a b : Option Unit) (d : Option DataArtifact),
        (load_recommender_models initialState a b d).2 = false →
          (∀ data, d = some data → data.feature_cols.isSome) →
            ((load_recommender_models initialState a b d).1).ready = false) ∧
      (∀ (s : ServiceState) (ratings : List Rating) (topK : ℕ)
          (recs : List Recommendation),
        endpoint s ratings topK = .ok recs → s.ready = true) := by
  refine ⟨?_, ?_, ?_⟩
  · intro s ratings topK h
    simp [endpoint, h]
  · intro a b d h hfc
    cases a with
    | none =>
        simp [load_recommender_models, initialState, ServiceState.ready]
    | some ua =>
        cases b with
        | none =>
            simp [load_recommender_models, initialState, ServiceState.ready]
        | some ub =>
            cases d with
            | none =>
                simp [load_recommender_models, initialState,
                  ServiceState.ready]
            | some data =>
                have hfc' := hfc data rfl
                cases hdf : data.df with
                | none =>
                    simp [load_recommender_models, initialState,
                      ServiceState.ready, hdf]
                | some st =>
                    cases hsf : data.scaled_features with
                    | none =>
                        simp [load_recommender_models, initialState,
                          ServiceState.ready, hdf, hsf]
                    | some usf =>
                        cases hfcv : data.feature_cols with
                        | none => rw [hfcv] at hfc'; simp at hfc'
                        | some ufc =>
                            simp [load_recommender_models, hdf, hsf,
                              hfcv] at h
  · intro s ratings topK recs h
    by_cases hr : s.ready
    · exact hr
    · rw [Bool.not_eq_true] at hr
      rw [show endpoint s ratings topK = .error .serviceUnavailable by
        simp [endpoint, hr]] at h
      exact absurd h (by simp)

/-- C9 witness: the fresh start state rejects a query with
serviceUnavailable, and a load whose data pickle is missing entirely
leaves the service not ready. -/
theorem c9_witness :
    endpoint initialState [] 5 = .error .serviceUnavailable ∧
      ((load_recommender_models initialState (some ()) (some ())
          none).1).ready = false :=
  ⟨c9_ready_guard.1 initialState [] 5 rfl,
    c9_ready_guard.2.1 (some ()) (some ()) none rfl
      (fun _ h => Option.noConfusion h)⟩
